import Mathlib

/-!
Verification of the `atwork` terminal progress reporter (`atwork.py`).

The development shallowly embeds the interactive rendering core
(`CursesFormatter`, its per-task render state `CursesTaskInfo`, and the
`Task` lifecycle) as pure Lean functions.  Mutation is modelled by
explicit state passing; the wall-clock readings of `time.perf_counter()`
are threaded in as explicit rational arguments; Python dictionaries keyed
by object identity become association lists keyed by a numeric task id;
a call that would raise `KeyError` returns `none`.
-/

namespace Atwork

/-- Number of newline characters in a string (used to count the terminal
lines an emitted chunk occupies). -/
def countNL (s : String) : Nat := s.data.count '\n'

/-- Python `s * n` string repetition. -/
def strRepeat (s : String) (n : Nat) : String := String.join (List.replicate n s)

/-- Decimal digits of a natural number, fuel-based so that it reduces in
the kernel.  Models the digits of Python `str(int)` for nonnegative
values; fuel `n + 1` is always sufficient. -/
def natDigitsAux : Nat → Nat → List Char
  | 0, _ => []
  | fuel + 1, n =>
    if n < 10 then [Nat.digitChar n]
    else natDigitsAux fuel (n / 10) ++ [Nat.digitChar (n % 10)]

/-- Python `str(n)` for a natural number. -/
def natStr (n : Nat) : String := String.mk (natDigitsAux (n + 1) n)

/-- Python `str(i)` for an integer. -/
def intStr (i : ℤ) : String := if i < 0 then "-" ++ natStr i.natAbs else natStr i.natAbs

/-- Rendering of the cached rate.  The source prints a Python float
(`str(info.rate)`); we model the rate exactly as a rational and render it
as such.  No claim depends on the exact text of the rate. -/
def ratStr (q : ℚ) : String :=
  if q.den = 1 then intStr q.num else intStr q.num ++ "/" ++ natStr q.den

/-- Python `str.zfill`: left-pad with zeros up to `width` (the padded
strings here are decimal numerals, never signed). -/
def zfill (s : String) (width : Nat) : String :=
  strRepeat "0" (width - s.length) ++ s

/-- Python `msg or default` for an optional string argument: `None` and
the empty string are falsy and select the default. -/
def orDefault (msg : Option String) (d : String) : String :=
  match msg with
  | none => d
  | some m => if m = "" then d else m

/-- Python truthiness of the optional `last_update` timestamp: `None` and
`0.0` are falsy. -/
def truthyTime : Option ℚ → Bool
  | none => false
  | some t => if t = 0 then false else true

/-- Python `round(x, 2)`, modelled exactly on rationals.  (CPython uses
round-half-to-even on floats; the tie-breaking never matters for the
claims, which only name "rounded to 2 decimal places".) -/
def round2 (q : ℚ) : ℚ := (round (q * 100) : ℤ) / 100

/-- Fuel-based floor of log10, the exact value of the source expression
`math.floor(math.log(n, 10))` for `n ≥ 1` computed with an exact
logarithm.  NOTE: CPython evaluates `math.log(n, 10)` in IEEE double
precision as `log(n)/log(10)`, which undershoots at some exact powers of
ten (`math.log(1000, 10) == 2.9999999999999996`); see the C5 analysis. -/
def natLog10Aux : Nat → Nat → Nat
  | 0, _ => 0
  | fuel + 1, n => if n < 10 then 0 else natLog10Aux fuel (n / 10) + 1

/-- Exact-logarithm model of the floor of log10. -/
def natLog10 (n : Nat) : Nat := natLog10Aux n n

/-- Python `collections.deque(..., maxlen=maxlen).append x`: append on
the right, evicting from the left when the deque is full. -/
def dequeAppend (maxlen : Nat) (xs : List String) (x : String) : List String :=
  (xs ++ [x]).drop (xs.length + 1 - maxlen)

/-- One decorative style entry (`CursesMessageStyle`); the source
`prefix`/`suffix` fields are named `pre`/`suf` here. -/
structure CursesMessageStyle where
  pre : String
  suf : String
  contents : Option String
  deriving DecidableEq

/-- A visual style for one nesting depth (`CursesStyle`). -/
structure CursesStyle where
  message : CursesMessageStyle
  success : CursesMessageStyle
  failure : CursesMessageStyle
  progress : CursesMessageStyle
  bar : CursesMessageStyle
  deriving DecidableEq

/-- The style table `DEFAULT_STYLES` of the source, verbatim. -/
def DEFAULT_STYLES : List CursesStyle :=
  [ { message := { pre := "\u001B[37;1m== ", suf := " \u001B[37;1m==", contents := none }
      success := { pre := " \u001B[32;1m[✓] ", suf := "", contents := some "" }
      failure := { pre := " \u001B[31;1m[x] ", suf := "", contents := some "" }
      progress := { pre := " \u001B[37;0m(", suf := ")", contents := some "/" }
      bar := { pre := "\u001B[37;1m[", suf := "]", contents := some "■" } },
    { message := { pre := " \u001B[37;1m[*] \u001B[0m", suf := "...", contents := none }
      success := { pre := " \u001B[32;1m[✓] ", suf := "", contents := some "" }
      failure := { pre := " \u001B[31;1m[x] ", suf := "", contents := some "" }
      progress := { pre := " \u001B[37;0m(", suf := ")", contents := some "/" }
      bar := { pre := "\u001B[37;1m[", suf := "]", contents := some "■" } },
    { message := { pre := " \u001B[90;1m*\u001B[90;1m ", suf := "...", contents := none }
      success := { pre := " \u001B[32m[✓] ", suf := "", contents := some "" }
      failure := { pre := " \u001B[31m[x] ", suf := "", contents := some "" }
      progress := { pre := " \u001B[37;0m(", suf := ")", contents := none }
      bar := { pre := "\u001B[37;0m[", suf := "]", contents := some "■" } } ]

/-- Fallback style for the (never exercised) empty-style-table case; the
source would raise `IndexError` on `styles[-1]` with an empty table. -/
def EMPTY_MESSAGE_STYLE : CursesMessageStyle := { pre := "", suf := "", contents := none }

/-- Fallback style record (see `EMPTY_MESSAGE_STYLE`). -/
def EMPTY_STYLE : CursesStyle :=
  { message := EMPTY_MESSAGE_STYLE, success := EMPTY_MESSAGE_STYLE,
    failure := EMPTY_MESSAGE_STYLE, progress := EMPTY_MESSAGE_STYLE,
    bar := EMPTY_MESSAGE_STYLE }

/-- A `Task`: one unit of work.  Python object identity becomes the `id`
field (the formatter dictionary is keyed by it); the `parent`, `root`
and `formatter` back-references are realised by passing the formatter
state explicitly and by `Task.subtask` computing the nesting depth. -/
structure Task where
  id : Nat
  msg : String
  progress : Nat
  total : Option Nat
  unit : Option String
  done : Bool
  nest_level : Nat
  deriving DecidableEq

/-- The `Task` constructor (no parent): progress 0, not done. -/
def Task.init (id : Nat) (msg : String) (total : Option Nat) (unit : Option String)
    (nest_level : Nat) : Task :=
  { id := id, msg := msg, progress := 0, total := total, unit := unit,
    done := false, nest_level := nest_level }

/-- Model of `Task.subtask`: child with `nest_level = parent.nest_level + 1`. -/
def Task.subtask (parent : Task) (id : Nat) (msg : String) (total : Option Nat)
    (unit : Option String) : Task :=
  Task.init id msg total unit (parent.nest_level + 1)

/-- Per-task render state (`CursesTaskInfo`).  `maxlen` records the
capacity the Python deque was constructed with (`max_messages + 1`). -/
structure CursesTaskInfo where
  start : ℚ
  last_update : Option ℚ
  last_printed : Nat
  header : String
  result : String
  messages : List String
  maxlen : Nat
  bar_width : Nat
  rate : ℚ
  order : Nat
  unit : String
  deriving DecidableEq

/-- Model of `CursesTaskInfo.__init__`.  Field `order` uses the exact logarithm; CPython
computes it in floating point (see `natLog10Aux` and the C5 analysis),
and raises `ValueError` for `total = 0`, a case no claim exercises. -/
def CursesTaskInfo.init (task : Task) (max_messages : Nat) (now : ℚ) : CursesTaskInfo :=
  { start := now
    last_update := none
    last_printed := 0
    header := ""
    result := ""
    messages := [""]
    maxlen := max_messages + 1
    bar_width := 80
    rate := 0
    order := match task.total with
      | some total => natLog10 total + 1
      | none => 0
    unit := match task.unit with
      | some u => if u = "" then "/s" else " " ++ u ++ "/s"
      | none => "/s" }

/-- Association-list lookup, modelling `self.info[task]`. -/
def lookupInfo : List (Nat × CursesTaskInfo) → Nat → Option CursesTaskInfo
  | [], _ => none
  | (k, v) :: rest, key => if k = key then some v else lookupInfo rest key

/-- Association-list store, modelling `self.info[task] = v`. -/
def setInfo : List (Nat × CursesTaskInfo) → Nat → CursesTaskInfo → List (Nat × CursesTaskInfo)
  | [], key, v => [(key, v)]
  | (k, v0) :: rest, key, v =>
    if k = key then (key, v) :: rest else (k, v0) :: setInfo rest key v

/-- The process-wide state of the interactive formatter (`CursesFormatter`). -/
structure CursesFormatter where
  info : List (Nat × CursesTaskInfo)
  max_messages : Nat
  last_task : Option Nat
  keep_steps : Bool
  styles : List CursesStyle
  update_threshold : ℚ
  deriving DecidableEq

/-- Model of `CursesFormatter.__init__`. -/
def CursesFormatter.init : CursesFormatter :=
  { info := [], max_messages := 5, last_task := none, keep_steps := true,
    styles := DEFAULT_STYLES, update_threshold := 1/2 }

/-- Model of `CursesFormatter.style_for`: clamp to the last style beyond the table. -/
def CursesFormatter.style_for (f : CursesFormatter) (nest_level : Nat) : CursesStyle :=
  if f.styles.length ≤ nest_level then f.styles.getLastD EMPTY_STYLE
  else f.styles.getD nest_level EMPTY_STYLE

/-- Model of `CursesFormatter.update_header`. -/
def CursesFormatter.update_header (f : CursesFormatter) (task : Task)
    (info : CursesTaskInfo) (msg : String) : CursesTaskInfo :=
  { info with header := (f.style_for task.nest_level).message.pre ++ msg
      ++ (f.style_for task.nest_level).message.suf }

/-- Model of `CursesFormatter.update_result`.  Note the source composes the
failure text with `style.success.suffix`, not `style.failure.suffix`. -/
def CursesFormatter.update_result (f : CursesFormatter) (task : Task)
    (info : CursesTaskInfo) (msg : String) (success : Bool) : CursesTaskInfo :=
  if success then
    { info with result := (f.style_for task.nest_level).success.pre ++ msg
        ++ (f.style_for task.nest_level).success.suf }
  else
    { info with result := (f.style_for task.nest_level).failure.pre ++ msg
        ++ (f.style_for task.nest_level).success.suf }

/-- The rate-recompute guard of `CursesFormatter.update`, line for line:
`(task.progress > 0 and not info.last_update) or (info.last_update and
now - info.last_update >= self.update_threshold)`. -/
def rateCond (threshold : ℚ) (info : CursesTaskInfo) (progress : Nat) (now : ℚ) : Bool :=
  (decide (0 < progress) && !truthyTime info.last_update)
  || (truthyTime info.last_update && decide (threshold ≤ now - info.last_update.getD 0))

/-- The rate-sampling step of `CursesFormatter.update`: when the guard
holds, `info.rate = round(task.progress / (now - info.start), 2)` and
`info.last_update = now`. -/
def rateStep (threshold : ℚ) (info : CursesTaskInfo) (progress : Nat) (now : ℚ) : CursesTaskInfo :=
  if rateCond threshold info progress now then
    { info with rate := round2 ((progress : ℚ) / (now - info.start)),
                last_update := some now }
  else info

/-- Header section of `CursesFormatter.update` (the `if task ==
self.last_task or not info.last_printed` block): cursor-up escape, cached
header, and — when `total` is set — the progress fragment, performing the
throttled rate sample.  Returns the emitted text and the (possibly
rate-updated) render state. -/
def CursesFormatter.headPart (f : CursesFormatter) (task : Task)
    (info : CursesTaskInfo) (now : ℚ) : String × CursesTaskInfo :=
  if f.last_task = some task.id ∨ info.last_printed = 0 then
    let indent := strRepeat "  " task.nest_level
    let m0 := if info.last_printed = 0 then ""
              else "\u001B[" ++ natStr info.last_printed ++ "A\r" ++ indent
    let m1 := m0 ++ info.header
    match task.total with
    | some total =>
      let info1 := rateStep f.update_threshold info task.progress now
      (m1 ++ (f.style_for task.nest_level).progress.pre
          ++ zfill (natStr task.progress) info.order ++ "/" ++ natStr total
          ++ ", " ++ ratStr info1.rate ++ info1.unit
          ++ (f.style_for task.nest_level).progress.suf,
       info1)
    | none => (m1, info)
  else (strRepeat "  " task.nest_level, info)

/-- Sub-message section of `CursesFormatter.update`: one indented styled
line per ring-buffer entry after the first, only when this task is the
last-rendered one and (`keep_steps` or not yet done). -/
def CursesFormatter.stepsPart (f : CursesFormatter) (task : Task)
    (info : CursesTaskInfo) : String :=
  if f.last_task = some task.id then
    if (f.keep_steps = true ∨ task.done = false) ∧ info.messages ≠ [] then
      String.join ((info.messages.drop 1).map (fun s =>
        strRepeat "  " task.nest_level ++ "  "
          ++ (f.style_for (task.nest_level + 1)).message.pre ++ s
          ++ (f.style_for (task.nest_level + 1)).message.suf ++ "\u001B[K\n"))
    else ""
  else ""

/-- Progress-bar section of `CursesFormatter.update`: rendered when the
task is not done and has a total.  (`total = 0` would raise
`ZeroDivisionError` in Python; `Nat` division returns 0 there.) -/
def CursesFormatter.barPart (f : CursesFormatter) (task : Task)
    (info : CursesTaskInfo) : String :=
  if task.done = false ∧ task.total.isSome then
    let total := task.total.getD 1
    let filled := info.bar_width * task.progress / total
    strRepeat "  " task.nest_level ++ (f.style_for task.nest_level).bar.pre
      ++ strRepeat ((f.style_for task.nest_level).bar.contents.getD "") filled
      ++ strRepeat " " (info.bar_width - filled)
      ++ (f.style_for task.nest_level).bar.suf ++ "\u001B[K\n"
  else ""

/-- Model of `CursesFormatter.update`: assemble the full redraw string, record the
printed-line count `max(0, len(messages) - 1) + lines` into the render
state, store it, and mark this task as last rendered.  The emitted string
is returned in place of the final print call of the source. -/
def CursesFormatter.update (f : CursesFormatter) (task : Task)
    (info : CursesTaskInfo) (now : ℚ) : CursesFormatter × String :=
  let hp := CursesFormatter.headPart f task info now
  let info1 := hp.2
  let msg := hp.1 ++ info1.result ++ "\u001B[K\n"
      ++ CursesFormatter.stepsPart f task info1
      ++ CursesFormatter.barPart f task info1 ++ "\u001B[J"
  let lines := if task.done = false ∧ task.total.isSome then 2 else 1
  let info2 := { info1 with last_printed := info1.messages.length - 1 + lines }
  ({ f with info := setInfo f.info task.id info2, last_task := some task.id }, msg)

/-- Model of `CursesFormatter.begin`: lazily create render state, compute the
styled header, mark this task as last rendered, render. -/
def CursesFormatter.begin (f : CursesFormatter) (task : Task) (msg : String)
    (now : ℚ) : CursesFormatter × String :=
  let f1 := if (lookupInfo f.info task.id).isSome then f
            else { f with info := setInfo f.info task.id (CursesTaskInfo.init task f.max_messages now) }
  let info0 := (lookupInfo f1.info task.id).getD (CursesTaskInfo.init task f.max_messages now)
  let info1 := CursesFormatter.update_header f1 task info0 msg
  CursesFormatter.update { f1 with last_task := some task.id } task info1 now

/-- Model of `CursesFormatter.message`: append to the ring buffer and render.
`none` models the `KeyError` raised when the task was never begun. -/
def CursesFormatter.message (f : CursesFormatter) (task : Task) (msg : String)
    (now : ℚ) : Option (CursesFormatter × String) :=
  match lookupInfo f.info task.id with
  | none => none
  | some info =>
    let info1 := { info with messages := dequeAppend info.maxlen info.messages msg }
    some (CursesFormatter.update f task info1 now)

/-- Model of `CursesFormatter.success`: set the styled result text (default
`DONE`) and render; `none` models `KeyError`. -/
def CursesFormatter.success (f : CursesFormatter) (task : Task) (msg : Option String)
    (now : ℚ) : Option (CursesFormatter × String) :=
  match lookupInfo f.info task.id with
  | none => none
  | some info =>
    let info1 := CursesFormatter.update_result f task info (orDefault msg "DONE") true
    some (CursesFormatter.update f task info1 now)

/-- Model of `CursesFormatter.fail`: set the styled result text (default `FAIL`)
and render; `none` models `KeyError`. -/
def CursesFormatter.fail (f : CursesFormatter) (task : Task) (msg : Option String)
    (now : ℚ) : Option (CursesFormatter × String) :=
  match lookupInfo f.info task.id with
  | none => none
  | some info =>
    let info1 := CursesFormatter.update_result f task info (orDefault msg "FAIL") false
    some (CursesFormatter.update f task info1 now)

/-- Model of `Task.begin`: forward the display message of the task to the formatter. -/
def Task.begin (t : Task) (f : CursesFormatter) (now : ℚ) :
    Task × CursesFormatter × String :=
  let r := CursesFormatter.begin f t t.msg now
  (t, r.1, r.2)

/-- Model of `Task.message`: forward a sub-status string to the formatter. -/
def Task.message (t : Task) (f : CursesFormatter) (msg : String) (now : ℚ) :
    Option (Task × CursesFormatter × String) :=
  (CursesFormatter.message f t msg now).map (fun r => (t, r.1, r.2))

/-- Model of `Task.step`: increment the counter when `total` is set; forward the
optional message.  The third component is the render output when a
message event was forwarded. -/
def Task.step (t : Task) (f : CursesFormatter) (msg : Option String) (now : ℚ) :
    Option (Task × CursesFormatter × Option String) :=
  let t1 := if t.total.isSome then { t with progress := t.progress + 1 } else t
  match msg with
  | none => some (t1, f, none)
  | some m => (CursesFormatter.message f t1 m now).map (fun r => (t1, r.1, some r.2))

/-- Model of `Task.success`: if already done, a silent no-op (third component
`none`: no event forwarded); otherwise set `done` and forward the
terminal event.  An overall `none` models the `KeyError` that the
formatter raises when the task was never begun. -/
def Task.success (t : Task) (f : CursesFormatter) (result : Option String) (now : ℚ) :
    Option (Task × CursesFormatter × Option String) :=
  if t.done then some (t, f, none)
  else
    (CursesFormatter.success f { t with done := true } result now).map
      (fun r => ({ t with done := true }, r.1, some r.2))

/-- Model of `Task.fail`: dual of `Task.success`. -/
def Task.fail (t : Task) (f : CursesFormatter) (result : Option String) (now : ℚ) :
    Option (Task × CursesFormatter × Option String) :=
  if t.done then some (t, f, none)
  else
    (CursesFormatter.fail f { t with done := true } result now).map
      (fun r => ({ t with done := true }, r.1, some r.2))

/-- Model of the scope-entry method: call `begin`, return the task. -/
def Task.enter (t : Task) (f : CursesFormatter) (now : ℚ) :
    Task × CursesFormatter × String :=
  Task.begin t f now

/-- Model of the scope-exit method: a `fail` with message `Exception` when the scope exits via a
propagating error, else `success()` with no result. -/
def Task.exit (t : Task) (f : CursesFormatter) (errored : Bool) (now : ℚ) :
    Option (Task × CursesFormatter × Option String) :=
  if errored then Task.fail t f (some "Exception") now
  else Task.success t f none now

/-- Either terminal method, selected by a flag (used to quantify over
"which terminal method is called"). -/
def termCall (isSuccess : Bool) (t : Task) (f : CursesFormatter) (result : Option String)
    (now : ℚ) : Option (Task × CursesFormatter × Option String) :=
  if isSuccess then Task.success t f result now else Task.fail t f result now

/-- Runs `n` consecutive `step` calls with no message. -/
def runSteps (f : CursesFormatter) (now : ℚ) : Nat → Task → Task
  | 0, t => t
  | n + 1, t =>
    match Task.step t f none now with
    | some r => runSteps f now n r.1
    | none => t

/-! Concrete scenario: task `A` is begun and receives one sub-message, a
sibling task `B` is then begun (becoming the last-rendered task), and
finally `A` receives its terminal `success` event while it is no longer
the last-rendered task.  Used to settle C7 and C8. -/

/-- Scenario task `A` (no total, depth 0). -/
def cexTaskA : Task := Task.init 0 "A" none none 0

/-- Scenario task `B` (no total, depth 0). -/
def cexTaskB : Task := Task.init 1 "B" none none 0

/-- Formatter after `begin` of `A` at time 1. -/
def cexF1 : CursesFormatter := (CursesFormatter.begin CursesFormatter.init cexTaskA "A" 1).1

/-- Formatter after `A.message("x")` at time 2. -/
def cexF2 : CursesFormatter :=
  ((Task.message cexTaskA cexF1 "x" 2).getD (cexTaskA, CursesFormatter.init, "")).2.1

/-- Formatter after `begin` of `B` at time 3. -/
def cexF3 : CursesFormatter := (Task.begin cexTaskB cexF2 3).2.1

/-- Final event: `A.success("ok")` at time 4, rendered while `B` is the
last-rendered task. -/
def cexFinal : Option (Task × CursesFormatter × Option String) :=
  Task.success cexTaskA cexF3 (some "ok") 4

/-- The string emitted by the final render of the scenario. -/
def cexOut : String := ((cexFinal.getD (cexTaskA, CursesFormatter.init, none)).2.2).getD ""

/-! Concrete scenario for C2: a scoped task whose body already calls
`success` before the scope exits via a propagating error. -/

/-- C2 scenario task. -/
def c2Task : Task := Task.init 7 "T" none none 0

/-- Scope entry (`__enter__`) at time 1. -/
def c2Enter : Task × CursesFormatter × String := Task.enter c2Task CursesFormatter.init 1

/-- The scope body calls `success("ok")` at time 2. -/
def c2Body : Option (Task × CursesFormatter × Option String) :=
  Task.success c2Enter.1 c2Enter.2.1 (some "ok") 2

/-- Task state after the terminal call made by the body. -/
def c2T : Task := (c2Body.getD (c2Task, CursesFormatter.init, none)).1

/-- Formatter state after the terminal call made by the body. -/
def c2F : CursesFormatter := (c2Body.getD (c2Task, CursesFormatter.init, none)).2.1

/-- Scope exit (`__exit__`) with a propagating error at time 3. -/
def c2Exit : Option (Task × CursesFormatter × Option String) := Task.exit c2T c2F true 3

/-! Concrete scenario for C4: six `message` events on one begun task. -/

/-- C4 scenario task. -/
def c4Task : Task := Task.init 0 "T" none none 0

/-- Formatter after `begin` of the C4 task at time 1. -/
def c4F0 : CursesFormatter := (CursesFormatter.begin CursesFormatter.init c4Task "T" 1).1

/-- One `message` event of the C4 scenario (`KeyError` cannot occur). -/
def c4s (f : CursesFormatter) (m : String) : CursesFormatter :=
  ((CursesFormatter.message f c4Task m 1).getD (f, "")).1

/-- Formatter after six message events `m1 .. m6`. -/
def c4F6 : CursesFormatter :=
  c4s (c4s (c4s (c4s (c4s (c4s c4F0 "m1") "m2") "m3") "m4") "m5") "m6"

/-! Small concrete states used by witnesses. -/

/-- Witness task: fresh, no total, depth 0, id 3. -/
def wTask : Task := Task.init 3 "W" none none 0

/-- Witness render state for `wTask`, created at time 1. -/
def wInfo : CursesTaskInfo := CursesTaskInfo.init wTask 5 1

/-- Witness formatter holding render state for `wTask`. -/
def wFmt : CursesFormatter := { CursesFormatter.init with info := [(3, wInfo)] }

/-- Witness task with a total, at progress 2. -/
def wTaskT : Task := { Task.init 4 "R" (some 10) none 0 with progress := 2 }

/-- Witness render state for `wTaskT` (start time 0, no rate sample). -/
def wInfoT : CursesTaskInfo := CursesTaskInfo.init wTaskT 5 0

/-- Witness render state with a prior rate sample at time 1. -/
def wInfoT2 : CursesTaskInfo := { wInfoT with last_update := some 1 }

/-- Witness formatter for the rate-throttle claim. -/
def wFmtT : CursesFormatter := { CursesFormatter.init with info := [(4, wInfoT)] }

/-- Witness formatter for which `wTask` is the last-rendered task. -/
def wFmtL : CursesFormatter :=
  { CursesFormatter.init with info := [(3, wInfo)], last_task := some 3 }

/-! ### Helper lemmas -/

/-- Looking up the key just stored. -/
theorem lookup_setInfo_self (m : List (Nat × CursesTaskInfo)) (k : Nat) (v : CursesTaskInfo) :
    lookupInfo (setInfo m k v) k = some v := by
  induction m with
  | nil => simp [setInfo, lookupInfo]
  | cons p rest ih =>
    obtain ⟨k0, v0⟩ := p
    by_cases h : k0 = k
    · simp [setInfo, h, lookupInfo]
    · simp [setInfo, h, lookupInfo, ih]

/-- The rate-sampling step touches only `rate` and `last_update`. -/
theorem rateStep_fields (thr : ℚ) (info : CursesTaskInfo) (p : Nat) (now : ℚ) :
    (rateStep thr info p now).result = info.result
    ∧ (rateStep thr info p now).messages = info.messages
    ∧ (rateStep thr info p now).maxlen = info.maxlen
    ∧ (rateStep thr info p now).header = info.header
    ∧ (rateStep thr info p now).unit = info.unit
    ∧ (rateStep thr info p now).bar_width = info.bar_width
    ∧ (rateStep thr info p now).order = info.order
    ∧ (rateStep thr info p now).start = info.start
    ∧ (rateStep thr info p now).last_printed = info.last_printed := by
  unfold rateStep
  split <;> simp

/-- The render state coming out of the header section is the rate-sampled
state exactly when the header branch was taken and `total` is set. -/
theorem headPart_snd (f : CursesFormatter) (task : Task) (info : CursesTaskInfo) (now : ℚ) :
    (CursesFormatter.headPart f task info now).2
      = if (f.last_task = some task.id ∨ info.last_printed = 0) ∧ task.total.isSome
        then rateStep f.update_threshold info task.progress now else info := by
  unfold CursesFormatter.headPart
  by_cases hc : f.last_task = some task.id ∨ info.last_printed = 0
  · rw [if_pos hc]
    cases htot : task.total with
    | none => simp [htot, hc]
    | some total => simp [htot, hc]
  · rw [if_neg hc]
    simp [hc]

/-- The header section never changes result, messages, maxlen or
bar_width. -/
theorem headPart_preserves (f : CursesFormatter) (task : Task) (info : CursesTaskInfo) (now : ℚ) :
    ((CursesFormatter.headPart f task info now).2).result = info.result
    ∧ ((CursesFormatter.headPart f task info now).2).messages = info.messages
    ∧ ((CursesFormatter.headPart f task info now).2).maxlen = info.maxlen
    ∧ ((CursesFormatter.headPart f task info now).2).bar_width = info.bar_width
    ∧ ((CursesFormatter.headPart f task info now).2).unit = info.unit
    ∧ ((CursesFormatter.headPart f task info now).2).rate
        = (if (f.last_task = some task.id ∨ info.last_printed = 0) ∧ task.total.isSome
           then (rateStep f.update_threshold info task.progress now).rate else info.rate)
    ∧ ((CursesFormatter.headPart f task info now).2).last_update
        = (if (f.last_task = some task.id ∨ info.last_printed = 0) ∧ task.total.isSome
           then (rateStep f.update_threshold info task.progress now).last_update
           else info.last_update) := by
  rw [headPart_snd]
  split
  · obtain ⟨h1, h2, h3, h4, h5, h6, h7, h8, h9⟩ :=
      rateStep_fields f.update_threshold info task.progress now
    exact ⟨h1, h2, h3, h6, h5, rfl, rfl⟩
  · exact ⟨rfl, rfl, rfl, rfl, rfl, rfl, rfl⟩

/-- The formatter state after a render: shape of the stored mapping. -/
theorem update_fst (f : CursesFormatter) (task : Task) (info : CursesTaskInfo) (now : ℚ) :
    (CursesFormatter.update f task info now).1
      = { f with
            info := setInfo f.info task.id
              { (CursesFormatter.headPart f task info now).2 with
                  last_printed :=
                    ((CursesFormatter.headPart f task info now).2).messages.length - 1
                      + (if task.done = false ∧ task.total.isSome then 2 else 1) },
            last_task := some task.id } := rfl

/-- The string emitted by a render: its section decomposition. -/
theorem update_snd (f : CursesFormatter) (task : Task) (info : CursesTaskInfo) (now : ℚ) :
    (CursesFormatter.update f task info now).2
      = (CursesFormatter.headPart f task info now).1
        ++ ((CursesFormatter.headPart f task info now).2).result ++ "\u001B[K\n"
        ++ CursesFormatter.stepsPart f task ((CursesFormatter.headPart f task info now).2)
        ++ CursesFormatter.barPart f task ((CursesFormatter.headPart f task info now).2)
        ++ "\u001B[J" := rfl

/-- Looking up the rendered task after a render. -/
theorem update_lookup (f : CursesFormatter) (task : Task) (info : CursesTaskInfo) (now : ℚ) :
    lookupInfo ((CursesFormatter.update f task info now).1).info task.id
      = some { (CursesFormatter.headPart f task info now).2 with
          last_printed :=
            ((CursesFormatter.headPart f task info now).2).messages.length - 1
              + (if task.done = false ∧ task.total.isSome then 2 else 1) } := by
  rw [update_fst]
  exact lookup_setInfo_self f.info task.id _

/-- Unfolding of a first `Task.success` call on a begun, not-yet-done
task. -/
theorem task_success_eq (t : Task) (f : CursesFormatter) (info : CursesTaskInfo)
    (m : Option String) (now : ℚ)
    (hdone : t.done = false) (hinfo : lookupInfo f.info t.id = some info) :
    Task.success t f m now
      = some ({ t with done := true },
          (CursesFormatter.update f { t with done := true }
            (CursesFormatter.update_result f { t with done := true } info
              (orDefault m "DONE") true) now).1,
          some (CursesFormatter.update f { t with done := true }
            (CursesFormatter.update_result f { t with done := true } info
              (orDefault m "DONE") true) now).2) := by
  have hinfo' : lookupInfo f.info ({ t with done := true } : Task).id = some info := hinfo
  simp [Task.success, hdone, CursesFormatter.success, hinfo']

/-- Unfolding of a first `Task.fail` call on a begun, not-yet-done
task. -/
theorem task_fail_eq (t : Task) (f : CursesFormatter) (info : CursesTaskInfo)
    (m : Option String) (now : ℚ)
    (hdone : t.done = false) (hinfo : lookupInfo f.info t.id = some info) :
    Task.fail t f m now
      = some ({ t with done := true },
          (CursesFormatter.update f { t with done := true }
            (CursesFormatter.update_result f { t with done := true } info
              (orDefault m "FAIL") false) now).1,
          some (CursesFormatter.update f { t with done := true }
            (CursesFormatter.update_result f { t with done := true } info
              (orDefault m "FAIL") false) now).2) := by
  have hinfo' : lookupInfo f.info ({ t with done := true } : Task).id = some info := hinfo
  simp [Task.fail, hdone, CursesFormatter.fail, hinfo']

/-- Lemma: `runSteps` adds exactly its count to the progress counter of a task
with a total. -/
theorem runSteps_progress (f : CursesFormatter) (now : ℚ) (T : Nat) :
    ∀ n (t : Task), t.total = some T → (runSteps f now n t).progress = t.progress + n := by
  intro n
  induction n with
  | zero => intro t ht; simp [runSteps]
  | succ k ih =>
    intro t ht
    have hs : t.total.isSome = true := by simp [ht]
    have hstep : Task.step t f none now = some ({ t with progress := t.progress + 1 }, f, none) := by
      simp [Task.step, hs]
    rw [runSteps, hstep]
    have := ih { t with progress := t.progress + 1 } (by simpa using ht)
    simp only at this
    rw [this]
    omega

/-! ### Claim theorems -/

/-- C3: each `step` call increments the progress counter by exactly 1
when `total` is set and leaves it unchanged when `total` is `None`; no
lifecycle operation (`begin`, `message`, `success`, `fail`) ever
decreases the counter; and for a task constructed with `total = T`,
after exactly `T` `step` calls the counter equals `T`. -/
theorem C3_step_progress (t : Task) (f : CursesFormatter) (m : Option String)
    (ms : String) (r : Option String) (now : ℚ) :
    (∀ t1 f1 o, Task.step t f m now = some (t1, f1, o) →
        t1.progress = (if t.total.isSome then t.progress + 1 else t.progress)
        ∧ t.progress ≤ t1.progress)
    ∧ (Task.begin t f now).1.progress = t.progress
    ∧ (∀ t1 f1 o, Task.message t f ms now = some (t1, f1, o) → t1.progress = t.progress)
    ∧ (∀ t1 f1 o, Task.success t f r now = some (t1, f1, o) → t1.progress = t.progress)
    ∧ (∀ t1 f1 o, Task.fail t f r now = some (t1, f1, o) → t1.progress = t.progress)
    ∧ (∀ T, t.total = some T → t.progress = 0 → (runSteps f now T t).progress = T) := by
  refine ⟨?_, rfl, ?_, ?_, ?_, ?_⟩
  · intro t1 f1 o h
    cases m with
    | none =>
      simp only [Task.step, Option.some.injEq, Prod.mk.injEq] at h
      obtain ⟨h1, -, -⟩ := h
      subst h1
      by_cases hs : t.total.isSome <;> simp [hs]
    | some m0 =>
      simp only [Task.step] at h
      cases hmsg : CursesFormatter.message f
          (if t.total.isSome then { t with progress := t.progress + 1 } else t) m0 now with
      | none => simp [hmsg] at h
      | some p =>
        simp only [hmsg, Option.map_some', Option.some.injEq, Prod.mk.injEq] at h
        obtain ⟨h1, -, -⟩ := h
        subst h1
        by_cases hs : t.total.isSome <;> simp [hs]
  · intro t1 f1 o h
    simp only [Task.message] at h
    cases hmsg : CursesFormatter.message f t ms now with
    | none => simp [hmsg] at h
    | some p =>
      simp only [hmsg, Option.map_some', Option.some.injEq, Prod.mk.injEq] at h
      obtain ⟨h1, -, -⟩ := h
      subst h1
      rfl
  · intro t1 f1 o h
    simp only [Task.success] at h
    by_cases hd : t.done
    · rw [if_pos hd] at h
      simp only [Option.some.injEq, Prod.mk.injEq] at h
      obtain ⟨h1, -, -⟩ := h
      subst h1
      rfl
    · rw [if_neg hd] at h
      cases hfmt : CursesFormatter.success f { t with done := true } r now with
      | none => simp [hfmt] at h
      | some p =>
        simp only [hfmt, Option.map_some', Option.some.injEq, Prod.mk.injEq] at h
        obtain ⟨h1, -, -⟩ := h
        subst h1
        rfl
  · intro t1 f1 o h
    simp only [Task.fail] at h
    by_cases hd : t.done
    · rw [if_pos hd] at h
      simp only [Option.some.injEq, Prod.mk.injEq] at h
      obtain ⟨h1, -, -⟩ := h
      subst h1
      rfl
    · rw [if_neg hd] at h
      cases hfmt : CursesFormatter.fail f { t with done := true } r now with
      | none => simp [hfmt] at h
      | some p =>
        simp only [hfmt, Option.map_some', Option.some.injEq, Prod.mk.injEq] at h
        obtain ⟨h1, -, -⟩ := h
        subst h1
        rfl
  · intro T hT h0
    rw [runSteps_progress f now T T t hT, h0]
    exact Nat.zero_add T

/-- C3 witness: a fresh task with `total = 3` reaches progress 3 after
three steps, and one step on a total-less task leaves progress at 0. -/
theorem C3_step_progress_witness :
    (Task.init 0 "W" (some 3) none 0).total = some 3
    ∧ (Task.init 0 "W" (some 3) none 0).progress = 0
    ∧ (runSteps CursesFormatter.init 1 3 (Task.init 0 "W" (some 3) none 0)).progress = 3
    ∧ Task.step (Task.init 1 "V" none none 0) CursesFormatter.init none 1
        = some (Task.init 1 "V" none none 0, CursesFormatter.init, none)
    ∧ (Task.init 1 "V" none none 0).progress = 0 := by
  refine ⟨rfl, rfl, ?_, rfl, rfl⟩
  exact (C3_step_progress (Task.init 0 "W" (some 3) none 0) CursesFormatter.init none "" none
    1).2.2.2.2.2 3 rfl rfl

/-- C5: in the exact-logarithm model of
`math.floor(math.log(total, 10)) + 1`, the digit width stored on
creation is 4 for `total = 1000` and 0 when `total` is absent, and the
progress counter is zero-padded to exactly that width.  (CPython
evaluates the two-argument `math.log` in floating point and actually
stores 3 for `total = 1000`; see the claim record.) -/
theorem C5_order_exact_model :
    (CursesTaskInfo.init (Task.init 0 "T" (some 1000) none 0) 5 0).order = 4
    ∧ (CursesTaskInfo.init (Task.init 0 "T" none none 0) 5 0).order = 0
    ∧ zfill (natStr 7) (CursesTaskInfo.init (Task.init 0 "T" (some 1000) none 0) 5 0).order
        = "0007" := by
  exact ⟨by decide, rfl, by decide⟩

/-- C9: the failure result text is the failure-style pre text, the
message, and the SUCCESS-style suf text; the success result differs only
in the prefix; and in the default style table every success and failure
suffix is empty, so the two compositions coincide on the suffix. -/
theorem C9_fail_result_suffix (f : CursesFormatter) (task : Task)
    (info : CursesTaskInfo) (m : String) :
    (CursesFormatter.update_result f task info m false).result
      = (f.style_for task.nest_level).failure.pre ++ m
        ++ (f.style_for task.nest_level).success.suf
    ∧ (CursesFormatter.update_result f task info m true).result
      = (f.style_for task.nest_level).success.pre ++ m
        ++ (f.style_for task.nest_level).success.suf
    ∧ (∀ s ∈ DEFAULT_STYLES, s.success.suf = "" ∧ s.failure.suf = "") := by
  exact ⟨rfl, rfl, by decide⟩

/-- C9 witness: the failure composition at depth 0 of the default table,
with the style-membership hypothesis discharged at the first entry. -/
theorem C9_fail_result_suffix_witness :
    (CursesFormatter.update_result CursesFormatter.init (Task.init 0 "t" none none 0)
        (CursesTaskInfo.init (Task.init 0 "t" none none 0) 5 0) "oops" false).result
      = (CursesFormatter.init.style_for 0).failure.pre ++ "oops"
        ++ (CursesFormatter.init.style_for 0).success.suf
    ∧ (DEFAULT_STYLES.getD 0 EMPTY_STYLE).success.suf = ""
      ∧ (DEFAULT_STYLES.getD 0 EMPTY_STYLE).failure.suf = "" := by
  refine ⟨(C9_fail_result_suffix CursesFormatter.init (Task.init 0 "t" none none 0)
    (CursesTaskInfo.init (Task.init 0 "t" none none 0) 5 0) "oops").1, ?_⟩
  exact (C9_fail_result_suffix CursesFormatter.init (Task.init 0 "t" none none 0)
    (CursesTaskInfo.init (Task.init 0 "t" none none 0) 5 0) "oops").2.2
    (DEFAULT_STYLES.getD 0 EMPTY_STYLE) (by decide)

/-- C10: with no render state for a task (its `begin` never ran), the
formatter events `message`, `success` and `fail` all fail with the key-lookup
error (modelled as `none`); after `begin` has run for the task, render
state exists and all three events succeed. -/
theorem C10_begin_required (f : CursesFormatter) (task : Task) (m : String)
    (r : Option String) (now n0 : ℚ) :
    (lookupInfo f.info task.id = none →
        CursesFormatter.message f task m now = none
        ∧ CursesFormatter.success f task r now = none
        ∧ CursesFormatter.fail f task r now = none)
    ∧ ((lookupInfo ((CursesFormatter.begin f task m n0).1).info task.id).isSome
        ∧ (CursesFormatter.message ((CursesFormatter.begin f task m n0).1) task m now).isSome
        ∧ (CursesFormatter.success ((CursesFormatter.begin f task m n0).1) task r now).isSome
        ∧ (CursesFormatter.fail ((CursesFormatter.begin f task m n0).1) task r now).isSome) := by
  constructor
  · intro h
    exact ⟨by simp [CursesFormatter.message, h], by simp [CursesFormatter.success, h],
      by simp [CursesFormatter.fail, h]⟩
  · have hsome : (lookupInfo ((CursesFormatter.begin f task m n0).1).info task.id).isSome := by
      simp only [CursesFormatter.begin]
      rw [update_lookup]
      rfl
    obtain ⟨i, hi⟩ := Option.isSome_iff_exists.mp hsome
    exact ⟨hsome, by simp [CursesFormatter.message, hi], by simp [CursesFormatter.success, hi],
      by simp [CursesFormatter.fail, hi]⟩

/-- C10 witness: a fresh formatter has no render state for the task, so
all three events error; after `begin`, all three succeed. -/
theorem C10_begin_required_witness :
    lookupInfo CursesFormatter.init.info 0 = none
    ∧ CursesFormatter.message CursesFormatter.init (Task.init 0 "t" none none 0) "m" 1 = none
    ∧ CursesFormatter.success CursesFormatter.init (Task.init 0 "t" none none 0) none 1 = none
    ∧ CursesFormatter.fail CursesFormatter.init (Task.init 0 "t" none none 0) none 1 = none
    ∧ (CursesFormatter.message
        ((CursesFormatter.begin CursesFormatter.init (Task.init 0 "t" none none 0) "m" 1).1)
        (Task.init 0 "t" none none 0) "m" 2).isSome := by
  refine ⟨rfl, ?_, ?_, ?_, ?_⟩
  · exact (C10_begin_required CursesFormatter.init (Task.init 0 "t" none none 0) "m" none 1 1).1
      rfl |>.1
  · exact (C10_begin_required CursesFormatter.init (Task.init 0 "t" none none 0) "m" none 1 1).1
      rfl |>.2.1
  · exact (C10_begin_required CursesFormatter.init (Task.init 0 "t" none none 0) "m" none 1 1).1
      rfl |>.2.2
  · exact (C10_begin_required CursesFormatter.init (Task.init 0 "t" none none 0) "m" none 2 1).2.2.1

/-- C1: on a begun, not-yet-done task, the first terminal call (either
`success` or `fail`) sets `done`, forwards exactly one terminal event
(rendering once) and records the styled result text; any later terminal
call — of either kind — returns the task and formatter unchanged and
forwards nothing, so the recorded result text stays as set by the first
call. -/
theorem C1_terminal_idempotent (t : Task) (f : CursesFormatter) (info : CursesTaskInfo)
    (b1 b2 : Bool) (m1 m2 : Option String) (n1 n2 : ℚ)
    (hdone : t.done = false) (hinfo : lookupInfo f.info t.id = some info) :
    ∃ t1 f1 out1,
      termCall b1 t f m1 n1 = some (t1, f1, some out1)
      ∧ t1.done = true
      ∧ (∃ i1, lookupInfo f1.info t.id = some i1
          ∧ i1.result = (if b1 then
                (f.style_for t.nest_level).success.pre ++ orDefault m1 "DONE"
                  ++ (f.style_for t.nest_level).success.suf
              else
                (f.style_for t.nest_level).failure.pre ++ orDefault m1 "FAIL"
                  ++ (f.style_for t.nest_level).success.suf))
      ∧ termCall b2 t1 f1 m2 n2 = some (t1, f1, none) := by
  cases b1 with
  | true =>
    refine ⟨{ t with done := true },
      (CursesFormatter.update f { t with done := true }
        (CursesFormatter.update_result f { t with done := true } info
          (orDefault m1 "DONE") true) n1).1,
      (CursesFormatter.update f { t with done := true }
        (CursesFormatter.update_result f { t with done := true } info
          (orDefault m1 "DONE") true) n1).2,
      task_success_eq t f info m1 n1 hdone hinfo, rfl, ?_, ?_⟩
    · refine ⟨_, update_lookup f { t with done := true }
        (CursesFormatter.update_result f { t with done := true } info
          (orDefault m1 "DONE") true) n1, ?_⟩
      exact (headPart_preserves f { t with done := true }
        (CursesFormatter.update_result f { t with done := true } info
          (orDefault m1 "DONE") true) n1).1
    · cases b2 <;> simp [termCall, Task.success, Task.fail]
  | false =>
    refine ⟨{ t with done := true },
      (CursesFormatter.update f { t with done := true }
        (CursesFormatter.update_result f { t with done := true } info
          (orDefault m1 "FAIL") false) n1).1,
      (CursesFormatter.update f { t with done := true }
        (CursesFormatter.update_result f { t with done := true } info
          (orDefault m1 "FAIL") false) n1).2,
      task_fail_eq t f info m1 n1 hdone hinfo, rfl, ?_, ?_⟩
    · refine ⟨_, update_lookup f { t with done := true }
        (CursesFormatter.update_result f { t with done := true } info
          (orDefault m1 "FAIL") false) n1, ?_⟩
      exact (headPart_preserves f { t with done := true }
        (CursesFormatter.update_result f { t with done := true } info
          (orDefault m1 "FAIL") false) n1).1
    · cases b2 <;> simp [termCall, Task.success, Task.fail]

/-- C1 witness: a concrete first `success("ok")` followed by a `fail`,
with both hypotheses discharged definitionally. -/
theorem C1_terminal_idempotent_witness :
    wTask.done = false ∧ lookupInfo wFmt.info wTask.id = some wInfo
    ∧ ∃ t1 f1 out1,
        termCall true wTask wFmt (some "ok") 1 = some (t1, f1, some out1)
        ∧ t1.done = true
        ∧ (∃ i1, lookupInfo f1.info wTask.id = some i1
            ∧ i1.result = (if true then
                  (wFmt.style_for wTask.nest_level).success.pre ++ orDefault (some "ok") "DONE"
                    ++ (wFmt.style_for wTask.nest_level).success.suf
                else
                  (wFmt.style_for wTask.nest_level).failure.pre ++ orDefault (some "ok") "FAIL"
                    ++ (wFmt.style_for wTask.nest_level).success.suf))
        ∧ termCall false t1 f1 none 2 = some (t1, f1, none) :=
  ⟨rfl, rfl, C1_terminal_idempotent wTask wFmt wInfo true false (some "ok") none 1 2 rfl rfl⟩

/-- C2 counterexample: a scoped task whose body already called
`success("ok")` exits via a propagating error, yet the exit call forwards
NO terminal event (`none`), leaves the formatter untouched, and the
recorded result text remains the success text — contradicting the claim
that exiting the scope emits exactly one terminal event with failure
label `Exception` even if the body already called `success`/`fail`. -/
theorem C2_scope_exit_counterexample :
    c2T.done = true
    ∧ c2Exit = some (c2T, c2F, none)
    ∧ (lookupInfo c2F.info 7).map (fun i => i.result) = some " \u001B[32;1m[✓] ok" := by
  have h : c2T.done = true := by decide
  refine ⟨h, ?_, by decide⟩
  show Task.exit c2T c2F true 3 = some (c2T, c2F, none)
  simp [Task.exit, Task.fail, h]

/-- C2 (amended): entering the scope calls `begin` and returns the task;
exiting forwards exactly one terminal event — `fail` with the fixed label
`Exception` on a propagating error, else `success` with no result
(recorded as `DONE`) — PROVIDED the body made no terminal call; if the
body already called `success`/`fail`, the exit call forwards no event and
changes nothing (the single terminal event of the body stands, preserving
exactly one terminal event per scope use); `done` is true afterwards in
both cases. -/
theorem C2_scope_exit (t : Task) (f : CursesFormatter) (info : CursesTaskInfo)
    (err : Bool) (n1 n2 : ℚ)
    (hinfo : lookupInfo f.info t.id = some info) :
    (Task.enter t f n1).1 = t
    ∧ (Task.enter t f n1).2 = CursesFormatter.begin f t t.msg n1
    ∧ (t.done = false →
        ∃ f1 out, Task.exit t f err n2 = some ({ t with done := true }, f1, some out)
          ∧ ({ t with done := true } : Task).done = true
          ∧ ∃ i1, lookupInfo f1.info t.id = some i1
              ∧ i1.result = (if err then
                    (f.style_for t.nest_level).failure.pre ++ "Exception"
                      ++ (f.style_for t.nest_level).success.suf
                  else
                    (f.style_for t.nest_level).success.pre ++ "DONE"
                      ++ (f.style_for t.nest_level).success.suf))
    ∧ (t.done = true → Task.exit t f err n2 = some (t, f, none)) := by
  refine ⟨rfl, rfl, ?_, ?_⟩
  · intro hdone
    cases err with
    | true =>
      refine ⟨(CursesFormatter.update f { t with done := true }
          (CursesFormatter.update_result f { t with done := true } info
            (orDefault (some "Exception") "FAIL") false) n2).1,
        (CursesFormatter.update f { t with done := true }
          (CursesFormatter.update_result f { t with done := true } info
            (orDefault (some "Exception") "FAIL") false) n2).2,
        ?_, rfl, ?_⟩
      · show Task.fail t f (some "Exception") n2 = _
        exact task_fail_eq t f info (some "Exception") n2 hdone hinfo
      · refine ⟨_, update_lookup f { t with done := true }
          (CursesFormatter.update_result f { t with done := true } info
            (orDefault (some "Exception") "FAIL") false) n2, ?_⟩
        exact (headPart_preserves f { t with done := true }
          (CursesFormatter.update_result f { t with done := true } info
            (orDefault (some "Exception") "FAIL") false) n2).1
    | false =>
      refine ⟨(CursesFormatter.update f { t with done := true }
          (CursesFormatter.update_result f { t with done := true } info
            (orDefault none "DONE") true) n2).1,
        (CursesFormatter.update f { t with done := true }
          (CursesFormatter.update_result f { t with done := true } info
            (orDefault none "DONE") true) n2).2,
        ?_, rfl, ?_⟩
      · show Task.success t f none n2 = _
        exact task_success_eq t f info none n2 hdone hinfo
      · refine ⟨_, update_lookup f { t with done := true }
          (CursesFormatter.update_result f { t with done := true } info
            (orDefault none "DONE") true) n2, ?_⟩
        exact (headPart_preserves f { t with done := true }
          (CursesFormatter.update_result f { t with done := true } info
            (orDefault none "DONE") true) n2).1
  · intro hd
    cases err <;> simp [Task.exit, Task.fail, Task.success, hd]

/-- C2 witness: exit with a propagating error on a begun, not-yet-done
task, and exit on an already-done task. -/
theorem C2_scope_exit_witness :
    lookupInfo wFmt.info wTask.id = some wInfo
    ∧ wTask.done = false
    ∧ (∃ f1 out, Task.exit wTask wFmt true 2 = some ({ wTask with done := true }, f1, some out)
        ∧ ({ wTask with done := true } : Task).done = true
        ∧ ∃ i1, lookupInfo f1.info wTask.id = some i1
            ∧ i1.result = (if true then
                  (wFmt.style_for wTask.nest_level).failure.pre ++ "Exception"
                    ++ (wFmt.style_for wTask.nest_level).success.suf
                else
                  (wFmt.style_for wTask.nest_level).success.pre ++ "DONE"
                    ++ (wFmt.style_for wTask.nest_level).success.suf))
    ∧ ({ wTask with done := true } : Task).done = true
    ∧ Task.exit { wTask with done := true } wFmt true 2
        = some ({ wTask with done := true }, wFmt, none) :=
  ⟨rfl, rfl,
    (C2_scope_exit wTask wFmt wInfo true 1 2 rfl).2.2.1 rfl, rfl,
    (C2_scope_exit { wTask with done := true } wFmt wInfo true 1 2 rfl).2.2.2 rfl⟩

/-- C4 counterexample: with the default configuration (`max_messages =
5`), six message events leave SIX entries in the ring buffer — the deque
is constructed with capacity `max_messages + 1`, so the buffer exceeds
the configured capacity of 5 claimed by the spec. -/
theorem C4_ring_capacity_counterexample :
    (lookupInfo c4F6.info 0).map (fun i => i.messages)
      = some ["m1", "m2", "m3", "m4", "m5", "m6"]
    ∧ CursesFormatter.init.max_messages = 5
    ∧ ¬ ((6 : Nat) ≤ CursesFormatter.init.max_messages) :=
  ⟨by decide, rfl, by decide⟩

/-- A capped deque append never exceeds the capacity. -/
theorem dequeAppend_length_le (maxlen : Nat) (xs : List String) (x : String) :
    (dequeAppend maxlen xs x).length ≤ maxlen := by
  unfold dequeAppend
  rw [List.length_drop, List.length_append]
  simp only [List.length_cons, List.length_nil]
  omega

/-- C4 (amended): the ring buffer starts with one sentinel entry, its
capacity is `max_messages + 1` (default 6, not 5), and a `message` event
appends on the right while evicting from the LEFT (oldest first, FIFO)
once the deque is full, so its length never exceeds `max_messages + 1`. -/
theorem C4_ring_fifo (f : CursesFormatter) (task : Task) (info : CursesTaskInfo)
    (m : String) (now : ℚ)
    (hinfo : lookupInfo f.info task.id = some info) :
    (CursesTaskInfo.init task f.max_messages now).messages.length = 1
    ∧ (CursesTaskInfo.init task f.max_messages now).maxlen = f.max_messages + 1
    ∧ ∃ f1 out i1, CursesFormatter.message f task m now = some (f1, out)
        ∧ lookupInfo f1.info task.id = some i1
        ∧ i1.maxlen = info.maxlen
        ∧ i1.messages = (info.messages ++ [m]).drop (info.messages.length + 1 - info.maxlen)
        ∧ i1.messages.length ≤ info.maxlen := by
  refine ⟨rfl, rfl, ?_⟩
  have hmsg : CursesFormatter.message f task m now
      = some (CursesFormatter.update f task
          { info with messages := dequeAppend info.maxlen info.messages m } now) := by
    simp [CursesFormatter.message, hinfo]
  refine ⟨_, _, _, hmsg, update_lookup f task
    { info with messages := dequeAppend info.maxlen info.messages m } now, ?_, ?_, ?_⟩
  · exact (headPart_preserves f task
      { info with messages := dequeAppend info.maxlen info.messages m } now).2.2.1
  · exact (headPart_preserves f task
      { info with messages := dequeAppend info.maxlen info.messages m } now).2.1
  · have hmsgs := (headPart_preserves f task
      { info with messages := dequeAppend info.maxlen info.messages m } now).2.1
    have heq : ({ (CursesFormatter.headPart f task
        { info with messages := dequeAppend info.maxlen info.messages m } now).2 with
          last_printed := ((CursesFormatter.headPart f task
            { info with messages := dequeAppend info.maxlen info.messages m } now).2).messages.length
            - 1 + (if task.done = false ∧ task.total.isSome then 2 else 1) } :
        CursesTaskInfo).messages.length
        = (dequeAppend info.maxlen info.messages m).length := by
      simp only []
      rw [hmsgs]
    rw [heq]
    exact dequeAppend_length_le info.maxlen info.messages m

/-- Newline count distributes over string append. -/
theorem countNL_append (a b : String) : countNL (a ++ b) = countNL a + countNL b := by
  simp [countNL, String.data_append, List.count_append]

/-- Newline count of a flattened list of character lists. -/
theorem count_flatten_nl (L : List (List Char)) :
    L.flatten.count '\n' = (L.map (fun l => l.count '\n')).sum := by
  induction L with
  | nil => rfl
  | cons x xs ih => simp [List.count_append, ih]

/-- Newline count of a joined list of strings. -/
theorem countNL_join (l : List String) : countNL (String.join l) = (l.map countNL).sum := by
  simp only [countNL, String.data_join, count_flatten_nl, List.map_map]
  rfl

/-- Newline count of a repeated string. -/
theorem countNL_strRepeat (s : String) (n : Nat) : countNL (strRepeat s n) = n * countNL s := by
  unfold strRepeat
  rw [countNL_join]
  simp [List.map_replicate, List.sum_replicate, smul_eq_mul]

/-- Decimal digit characters are never the newline character. -/
theorem digitChar_ne_newline (d : Nat) : Nat.digitChar d ≠ '\n' := by
  rcases Nat.lt_or_ge d 16 with h | h
  · interval_cases d <;> decide
  · have e : Nat.digitChar d = Char.ofNat 42 := by
      simp [Nat.digitChar, show d ≠ 0 by omega, show d ≠ 1 by omega, show d ≠ 2 by omega,
        show d ≠ 3 by omega, show d ≠ 4 by omega, show d ≠ 5 by omega, show d ≠ 6 by omega,
        show d ≠ 7 by omega, show d ≠ 8 by omega, show d ≠ 9 by omega, show d ≠ 10 by omega,
        show d ≠ 11 by omega, show d ≠ 12 by omega, show d ≠ 13 by omega, show d ≠ 14 by omega,
        show d ≠ 15 by omega]
    rw [e]
    decide

/-- The digit expansion of a natural number contains no newline. -/
theorem count_nl_natDigitsAux (fuel : Nat) : ∀ n, (natDigitsAux fuel n).count '\n' = 0 := by
  induction fuel with
  | zero => intro n; rfl
  | succ k ih =>
    intro n
    unfold natDigitsAux
    split
    · simp [List.count_cons, digitChar_ne_newline n]
    · rw [List.count_append, ih]
      simp [List.count_cons, digitChar_ne_newline (n % 10)]

/-- Lemma: `natStr` contains no newline. -/
theorem countNL_natStr (n : Nat) : countNL (natStr n) = 0 :=
  count_nl_natDigitsAux (n + 1) n

/-- Lemma: `intStr` contains no newline. -/
theorem countNL_intStr (i : ℤ) : countNL (intStr i) = 0 := by
  unfold intStr
  split
  · rw [countNL_append, countNL_natStr]
    decide
  · exact countNL_natStr i.natAbs

/-- The rendered rate contains no newline. -/
theorem countNL_ratStr (q : ℚ) : countNL (ratStr q) = 0 := by
  unfold ratStr
  split
  · exact countNL_intStr q.num
  · rw [countNL_append, countNL_append, countNL_intStr, countNL_natStr]
    decide

/-- Lemma: `zfill` of a newline-free string is newline-free. -/
theorem countNL_zfill (s : String) (w : Nat) (h : countNL s = 0) :
    countNL (zfill s w) = 0 := by
  unfold zfill
  rw [countNL_append, countNL_strRepeat, h]
  have h0 : countNL "0" = 0 := by decide
  rw [h0, Nat.mul_zero]

/-- The style returned by `style_for` on the default table is one of the
three default styles. -/
theorem style_for_mem (f : CursesFormatter) (k : Nat) (h : f.styles = DEFAULT_STYLES) :
    f.style_for k ∈ DEFAULT_STYLES := by
  unfold CursesFormatter.style_for
  rw [h]
  split
  · decide
  · next hk =>
    have hk3 : k < 3 := by
      simpa [DEFAULT_STYLES] using Nat.lt_of_not_le hk
    interval_cases k <;> decide

/-- No string of any default style contains a newline. -/
theorem default_styles_nl : ∀ s ∈ DEFAULT_STYLES,
    countNL s.message.pre = 0 ∧ countNL s.message.suf = 0
    ∧ countNL s.progress.pre = 0 ∧ countNL s.progress.suf = 0
    ∧ countNL s.bar.pre = 0 ∧ countNL s.bar.suf = 0
    ∧ countNL (s.bar.contents.getD "") = 0
    ∧ countNL s.success.pre = 0 ∧ countNL s.success.suf = 0
    ∧ countNL s.failure.pre = 0 ∧ countNL s.failure.suf = 0 := by
  decide

/-- C6: the cached rate is recomputed during a render only under the
sampling guard — a prior sample at least `update_threshold` seconds old,
or a first sample with nonzero progress — and then equals
`round2 (progress / (now - start))` with the sample time advanced to
`now`; a render within the threshold of a prior (positive) sample leaves
rate and sample time untouched, as does any render of a total-less task;
in general the stored rate and sample time after a render are those of
`rateStep` exactly when the header branch ran with a total set. -/
theorem C6_rate_throttle (f : CursesFormatter) (task : Task) (info : CursesTaskInfo)
    (now t : ℚ) :
    (info.last_update = some t → 0 < t → now - t < f.update_threshold →
        rateStep f.update_threshold info task.progress now = info)
    ∧ (info.last_update = none → 0 < task.progress →
        rateStep f.update_threshold info task.progress now
          = { info with rate := round2 ((task.progress : ℚ) / (now - info.start)),
                        last_update := some now })
    ∧ (info.last_update = some t → 0 < t → f.update_threshold ≤ now - t →
        rateStep f.update_threshold info task.progress now
          = { info with rate := round2 ((task.progress : ℚ) / (now - info.start)),
                        last_update := some now })
    ∧ (task.total = none →
        ∃ i1, lookupInfo ((CursesFormatter.update f task info now).1).info task.id = some i1
          ∧ i1.rate = info.rate ∧ i1.last_update = info.last_update)
    ∧ (∃ i1, lookupInfo ((CursesFormatter.update f task info now).1).info task.id = some i1
        ∧ i1.rate = (if (f.last_task = some task.id ∨ info.last_printed = 0) ∧ task.total.isSome
                     then (rateStep f.update_threshold info task.progress now).rate
                     else info.rate)
        ∧ i1.last_update
            = (if (f.last_task = some task.id ∨ info.last_printed = 0) ∧ task.total.isSome
               then (rateStep f.update_threshold info task.progress now).last_update
               else info.last_update)) := by
  refine ⟨?_, ?_, ?_, ?_, ?_⟩
  · intro h1 h2 h3
    have hne : t ≠ 0 := ne_of_gt h2
    have hnl : ¬ (f.update_threshold ≤ now - t) := not_le.mpr h3
    unfold rateStep rateCond
    rw [h1]
    simp [truthyTime, hne, hnl]
  · intro h1 h2
    unfold rateStep rateCond
    rw [h1]
    simp [truthyTime, h2]
  · intro h1 h2 h3
    have hne : t ≠ 0 := ne_of_gt h2
    unfold rateStep rateCond
    rw [h1]
    simp [truthyTime, hne, h3]
  · intro htot
    refine ⟨_, update_lookup f task info now, ?_, ?_⟩
    · show ((CursesFormatter.headPart f task info now).2).rate = info.rate
      rw [(headPart_preserves f task info now).2.2.2.2.2.1]
      simp [htot]
    · show ((CursesFormatter.headPart f task info now).2).last_update = info.last_update
      rw [(headPart_preserves f task info now).2.2.2.2.2.2]
      simp [htot]
  · refine ⟨_, update_lookup f task info now, ?_, ?_⟩
    · exact (headPart_preserves f task info now).2.2.2.2.2.1
    · exact (headPart_preserves f task info now).2.2.2.2.2.2

/-- C6 witness: within-threshold render at `now = 5/4` after a sample at
1 keeps the rate; a first nonzero-progress sample at `now = 2` and an
over-threshold render at `now = 2` after a sample at 1 both recompute. -/
theorem C6_rate_throttle_witness :
    (wInfoT2.last_update = some 1 ∧ (0 : ℚ) < 1
      ∧ (5/4 : ℚ) - 1 < wFmtT.update_threshold
      ∧ rateStep wFmtT.update_threshold wInfoT2 wTaskT.progress (5/4) = wInfoT2)
    ∧ (wInfoT.last_update = none ∧ 0 < wTaskT.progress
      ∧ rateStep wFmtT.update_threshold wInfoT wTaskT.progress 2
          = { wInfoT with rate := round2 ((wTaskT.progress : ℚ) / (2 - wInfoT.start)),
                          last_update := some 2 })
    ∧ (wInfoT2.last_update = some 1 ∧ wFmtT.update_threshold ≤ (2 : ℚ) - 1
      ∧ rateStep wFmtT.update_threshold wInfoT2 wTaskT.progress 2
          = { wInfoT2 with rate := round2 ((wTaskT.progress : ℚ) / (2 - wInfoT2.start)),
                           last_update := some 2 }) := by
  refine ⟨⟨rfl, by norm_num, ?_, ?_⟩, ⟨rfl, by decide, ?_⟩, ⟨rfl, ?_, ?_⟩⟩
  · show (5/4 : ℚ) - 1 < 1/2
    norm_num
  · exact (C6_rate_throttle wFmtT wTaskT wInfoT2 (5/4) 1).1 rfl (by norm_num)
      (by show (5/4 : ℚ) - 1 < 1/2; norm_num)
  · exact (C6_rate_throttle wFmtT wTaskT wInfoT 2 0).2.1 rfl (by decide)
  · show (1/2 : ℚ) ≤ 2 - 1
    norm_num
  · exact (C6_rate_throttle wFmtT wTaskT wInfoT2 2 1).2.2.1 rfl (by norm_num)
      (by show (1/2 : ℚ) ≤ 2 - 1; norm_num)

/-- An infix stays an infix after appending on the right. -/
theorem substr_append_right {l m : List Char} (h : l <:+: m) (b : List Char) :
    l <:+: m ++ b := by
  obtain ⟨s, t, hst⟩ := h
  exact ⟨s, t ++ b, by rw [← hst]; simp⟩

/-- When the header branch runs, its emitted text contains the cached
header between the cursor-repositioning text and the (possibly empty)
progress fragment. -/
theorem headPart_fst_data (f : CursesFormatter) (task : Task) (info : CursesTaskInfo)
    (now : ℚ) (hc : f.last_task = some task.id ∨ info.last_printed = 0) :
    ∃ a b : List Char,
      ((CursesFormatter.headPart f task info now).1).data = a ++ info.header.data ++ b := by
  unfold CursesFormatter.headPart
  rw [if_pos hc]
  rcases htot : task.total with - | total
  · refine ⟨(if info.last_printed = 0 then ""
      else "\u001B[" ++ natStr info.last_printed ++ "A\r"
        ++ strRepeat "  " task.nest_level).data, [], ?_⟩
    simp [htot, String.data_append]
  · refine ⟨(if info.last_printed = 0 then ""
      else "\u001B[" ++ natStr info.last_printed ++ "A\r"
        ++ strRepeat "  " task.nest_level).data,
      ((f.style_for task.nest_level).progress.pre).data
        ++ (zfill (natStr task.progress) info.order).data
        ++ ("/").data ++ (natStr total).data ++ (", ").data
        ++ (ratStr (rateStep f.update_threshold info task.progress now).rate).data
        ++ ((rateStep f.update_threshold info task.progress now).unit).data
        ++ ((f.style_for task.nest_level).progress.suf).data, ?_⟩
    simp [htot, String.data_append]

/-- Newline count of the cursor-repositioning text. -/
theorem countNL_cursor (lp n : Nat) :
    countNL (if lp = 0 then ""
      else "\u001B[" ++ natStr lp ++ "A\r" ++ strRepeat "  " n) = 0 := by
  split
  · decide
  · have c2 : countNL "\u001B[" = 0 := by decide
    have c3 : countNL "A\r" = 0 := by decide
    have c4 : countNL "  " = 0 := by decide
    simp only [countNL_append, countNL_natStr, countNL_strRepeat, c2, c3, c4]
    omega

/-- The header section of a render emits no newline (default styles,
newline-free header and unit text). -/
theorem countNL_headPart (f : CursesFormatter) (task : Task) (info : CursesTaskInfo)
    (now : ℚ) (hsty : f.styles = DEFAULT_STYLES)
    (hh : countNL info.header = 0) (hu : countNL info.unit = 0) :
    countNL ((CursesFormatter.headPart f task info now).1) = 0 := by
  obtain ⟨-, -, hp1, hp2, -, -, -, -, -, -, -⟩ :=
    default_styles_nl _ (style_for_mem f task.nest_level hsty)
  have hun : countNL (rateStep f.update_threshold info task.progress now).unit = 0 := by
    rw [(rateStep_fields f.update_threshold info task.progress now).2.2.2.2.1]
    exact hu
  have hz := countNL_zfill (natStr task.progress) info.order (countNL_natStr task.progress)
  have c4 : countNL "  " = 0 := by decide
  have c5 : countNL "/" = 0 := by decide
  have c6 : countNL ", " = 0 := by decide
  unfold CursesFormatter.headPart
  split
  · rcases htot : task.total with - | total
    · simp only [htot]
      simp only [countNL_append, countNL_cursor, hh]
    · simp only [htot]
      simp only [countNL_append, countNL_cursor, hh, hp1, hp2, hz, countNL_natStr,
        countNL_ratStr, hun, c5, c6]
  · rw [countNL_strRepeat, c4, Nat.mul_zero]

/-- Sum of a map that is constantly one. -/
theorem sum_map_ones {α : Type} (g : α → Nat) (xs : List α) (h : ∀ x ∈ xs, g x = 1) :
    (xs.map g).sum = xs.length := by
  induction xs with
  | nil => rfl
  | cons a l ih =>
    simp [h a (List.mem_cons_self a l), ih (fun x hx => h x (List.mem_cons_of_mem a hx))]
    omega

/-- The sub-message section emits exactly one newline per displayed
entry, i.e. ring-buffer length minus one (default styles, newline-free
entries, task is last-rendered, `keep_steps` on). -/
theorem countNL_stepsPart (f : CursesFormatter) (task : Task) (i : CursesTaskInfo)
    (hlast : f.last_task = some task.id) (hkeep : f.keep_steps = true)
    (hmsg : i.messages ≠ []) (hsty : f.styles = DEFAULT_STYLES)
    (hms : ∀ s ∈ i.messages, countNL s = 0) :
    countNL (CursesFormatter.stepsPart f task i) = i.messages.length - 1 := by
  obtain ⟨hm1, hm2, -, -, -, -, -, -, -, -, -⟩ :=
    default_styles_nl _ (style_for_mem f (task.nest_level + 1) hsty)
  unfold CursesFormatter.stepsPart
  rw [if_pos hlast, if_pos (⟨Or.inl hkeep, hmsg⟩ :
    (f.keep_steps = true ∨ task.done = false) ∧ i.messages ≠ [])]
  rw [countNL_join, List.map_map]
  have hone : ∀ s ∈ i.messages.drop 1,
      (countNL ∘ fun s => strRepeat "  " task.nest_level ++ "  "
        ++ (f.style_for (task.nest_level + 1)).message.pre ++ s
        ++ (f.style_for (task.nest_level + 1)).message.suf ++ "\u001B[K\n") s = 1 := by
    intro s hs
    have hs0 : countNL s = 0 := hms s (List.drop_subset 1 i.messages hs)
    have cK : countNL "\u001B[K\n" = 1 := by decide
    have c4 : countNL "  " = 0 := by decide
    show countNL _ = 1
    simp only [countNL_append, countNL_strRepeat, hm1, hm2, hs0, cK, c4, Nat.mul_zero]
  rw [sum_map_ones _ _ hone, List.length_drop]

/-- The bar section emits exactly one newline when the bar renders, none
otherwise (default styles). -/
theorem countNL_barPart (f : CursesFormatter) (task : Task) (i : CursesTaskInfo)
    (hsty : f.styles = DEFAULT_STYLES) :
    countNL (CursesFormatter.barPart f task i)
      = (if task.done = false ∧ task.total.isSome then 1 else 0) := by
  obtain ⟨-, -, -, -, hb1, hb2, hbc, -, -, -, -⟩ :=
    default_styles_nl _ (style_for_mem f task.nest_level hsty)
  by_cases hb : task.done = false ∧ task.total.isSome
  · rw [if_pos hb]
    unfold CursesFormatter.barPart
    rw [if_pos hb]
    have cK : countNL "\u001B[K\n" = 1 := by decide
    have c4 : countNL "  " = 0 := by decide
    have cs : countNL " " = 0 := by decide
    simp only [countNL_append, countNL_strRepeat, hb1, hb2, hbc, cK, c4, cs, Nat.mul_zero]
  · rw [if_neg hb]
    unfold CursesFormatter.barPart
    rw [if_neg hb]
    decide

/-- C7 counterexample: after `begin(A)`, `message(A, "x")`, `begin(B)`,
the render triggered by `success(A, "ok")` emits only the result line —
the header of A (cached as shown) does NOT occur in the emitted string,
contradicting the claim that every render of the four events contains the
header line of the task. -/
theorem C7_header_counterexample :
    (lookupInfo cexF3.info 0).map (fun i => i.header) = some "\u001B[37;1m== A \u001B[37;1m=="
    ∧ cexFinal.map (fun r => r.2.2) = some (some " \u001B[32;1m[✓] ok\u001B[K\n\u001B[J")
    ∧ ¬ (("\u001B[37;1m== A \u001B[37;1m==").data <:+: cexOut.data) :=
  ⟨by decide, by decide, by decide⟩

/-- C7 (amended): the emitted string contains the header exactly on the
header branch — when the task is the last-rendered one or has never been
printed; otherwise only the indent and result line (plus bar) are
emitted, with no header; and when `total` is `None` the output consists
of header text, result line and sub-message lines only — no progress
fragment, no rate, and no bar. -/
theorem C7_header_render (f : CursesFormatter) (task : Task) (info : CursesTaskInfo)
    (now : ℚ) :
    ((f.last_task = some task.id ∨ info.last_printed = 0) →
        info.header.data <:+: ((CursesFormatter.update f task info now).2).data)
    ∧ (¬ (f.last_task = some task.id ∨ info.last_printed = 0) →
        (CursesFormatter.update f task info now).2
          = strRepeat "  " task.nest_level ++ info.result ++ "\u001B[K\n"
            ++ CursesFormatter.barPart f task info ++ "\u001B[J")
    ∧ (task.total = none →
        (CursesFormatter.update f task info now).2
          = (CursesFormatter.headPart f task info now).1 ++ info.result ++ "\u001B[K\n"
            ++ CursesFormatter.stepsPart f task info ++ "\u001B[J"
        ∧ (CursesFormatter.headPart f task info now).1
          = (if f.last_task = some task.id ∨ info.last_printed = 0 then
               (if info.last_printed = 0 then ""
                else "\u001B[" ++ natStr info.last_printed ++ "A\r"
                  ++ strRepeat "  " task.nest_level) ++ info.header
             else strRepeat "  " task.nest_level)) := by
  refine ⟨?_, ?_, ?_⟩
  · intro hc
    obtain ⟨a, b, hab⟩ := headPart_fst_data f task info now hc
    rw [update_snd]
    simp only [String.data_append]
    rw [hab]
    exact substr_append_right (substr_append_right (substr_append_right
      (substr_append_right (substr_append_right ⟨a, b, rfl⟩ _) _) _) _) _
  · intro hc
    have hnl : ¬ f.last_task = some task.id := fun h => hc (Or.inl h)
    have h1 : (CursesFormatter.headPart f task info now).1
        = strRepeat "  " task.nest_level := by
      unfold CursesFormatter.headPart
      rw [if_neg hc]
    have h2 : (CursesFormatter.headPart f task info now).2 = info := by
      rw [headPart_snd]
      simp [hc]
    have h3 : CursesFormatter.stepsPart f task info = "" := by
      unfold CursesFormatter.stepsPart
      rw [if_neg hnl]
    rw [update_snd, h1, h2, h3, String.append_empty]
  · intro htot
    constructor
    · have h2 : (CursesFormatter.headPart f task info now).2 = info := by
        rw [headPart_snd]
        simp [htot]
      have hbar : CursesFormatter.barPart f task info = "" := by
        unfold CursesFormatter.barPart
        simp [htot]
      rw [update_snd, h2, hbar, String.append_empty]
    · unfold CursesFormatter.headPart
      by_cases hc : f.last_task = some task.id ∨ info.last_printed = 0
      · rw [if_pos hc, if_pos hc]
        simp [htot]
      · rw [if_neg hc, if_neg hc]

/-- C7 witness: header-branch render contains the header; non-last,
already-printed render is just the result line; total-less render has no
progress fragment and no bar. -/
theorem C7_header_render_witness :
    (wFmt.last_task = some wTask.id ∨ wInfo.last_printed = 0)
    ∧ wInfo.header.data <:+: ((CursesFormatter.update wFmt wTask wInfo 1).2).data
    ∧ ¬ (wFmt.last_task = some wTask.id
          ∨ ({ wInfo with last_printed := 2 } : CursesTaskInfo).last_printed = 0)
    ∧ (CursesFormatter.update wFmt wTask { wInfo with last_printed := 2 } 1).2
        = strRepeat "  " wTask.nest_level
          ++ ({ wInfo with last_printed := 2 } : CursesTaskInfo).result ++ "\u001B[K\n"
          ++ CursesFormatter.barPart wFmt wTask { wInfo with last_printed := 2 } ++ "\u001B[J"
    ∧ wTask.total = none
    ∧ ((CursesFormatter.update wFmt wTask wInfo 1).2
        = (CursesFormatter.headPart wFmt wTask wInfo 1).1 ++ wInfo.result ++ "\u001B[K\n"
          ++ CursesFormatter.stepsPart wFmt wTask wInfo ++ "\u001B[J"
      ∧ (CursesFormatter.headPart wFmt wTask wInfo 1).1
        = (if wFmt.last_task = some wTask.id ∨ wInfo.last_printed = 0 then
             (if wInfo.last_printed = 0 then ""
              else "\u001B[" ++ natStr wInfo.last_printed ++ "A\r"
                ++ strRepeat "  " wTask.nest_level) ++ wInfo.header
           else strRepeat "  " wTask.nest_level)) := by
  refine ⟨Or.inr rfl, ?_, by decide, ?_, rfl, ?_⟩
  · exact (C7_header_render wFmt wTask wInfo 1).1 (Or.inr rfl)
  · exact (C7_header_render wFmt wTask { wInfo with last_printed := 2 } 1).2.1 (by decide)
  · exact (C7_header_render wFmt wTask wInfo 1).2.2 rfl

/-- C8 counterexample: in the A/B scenario, the render triggered by
`success(A)` while B is last-rendered prints exactly ONE terminal line,
but records `last_printed = 2` (its buffered sub-message line is counted
although it was not emitted) — contradicting the claim that the recorded
count equals the lines actually printed. -/
theorem C8_lines_counterexample :
    countNL cexOut = 1
    ∧ cexFinal.map (fun r => (lookupInfo r.2.1.info 0).map (fun i => i.last_printed))
        = some (some 2)
    ∧ (2 : Nat) ≠ 1 :=
  ⟨by decide, by decide, by decide⟩

/-- C8 (amended): every render records
`last_printed = (ring-buffer length - 1) + 1 (+1 for the bar)`, counting
buffered sub-message lines whether or not they were emitted; when the
task IS the last-rendered one (with `keep_steps` on, default styles and
newline-free content) this recorded count equals the number of newlines
actually emitted by that render. -/
theorem C8_lines_recorded (f : CursesFormatter) (task : Task) (info : CursesTaskInfo)
    (now : ℚ)
    (hlast : f.last_task = some task.id) (hkeep : f.keep_steps = true)
    (hmsg : info.messages ≠ []) (hsty : f.styles = DEFAULT_STYLES)
    (hh : countNL info.header = 0) (hr : countNL info.result = 0)
    (hms : ∀ s ∈ info.messages, countNL s = 0) (hu : countNL info.unit = 0) :
    ∃ i1, lookupInfo ((CursesFormatter.update f task info now).1).info task.id = some i1
      ∧ i1.last_printed = info.messages.length - 1
          + (if task.done = false ∧ task.total.isSome then 2 else 1)
      ∧ countNL ((CursesFormatter.update f task info now).2) = i1.last_printed := by
  obtain ⟨hpres_r, hpres_m, -, -, -, -, -⟩ := headPart_preserves f task info now
  refine ⟨_, update_lookup f task info now, ?_, ?_⟩
  · show ((CursesFormatter.headPart f task info now).2).messages.length - 1 + _ = _
    rw [hpres_m]
  · show countNL _
      = ((CursesFormatter.headPart f task info now).2).messages.length - 1 + _
    rw [update_snd]
    simp only [countNL_append]
    rw [countNL_headPart f task info now hsty hh hu]
    rw [hpres_r, hr]
    have hsteps : countNL (CursesFormatter.stepsPart f task
        ((CursesFormatter.headPart f task info now).2)) = info.messages.length - 1 := by
      rw [countNL_stepsPart f task _ hlast hkeep (by rw [hpres_m]; exact hmsg) hsty
        (by rw [hpres_m]; exact hms), hpres_m]
    rw [hsteps]
    rw [countNL_barPart f task _ hsty]
    have cK : countNL "\u001B[K\n" = 1 := by decide
    have cJ : countNL "\u001B[J" = 0 := by decide
    rw [cK, cJ, hpres_m]
    have hlen : 0 < info.messages.length := List.length_pos.mpr hmsg
    split <;> omega

/-- C8 witness: a first render of the last-rendered task with one
(sentinel) buffer entry records and prints exactly one line. -/
theorem C8_lines_recorded_witness :
    wFmtL.last_task = some wTask.id
    ∧ ∃ i1, lookupInfo ((CursesFormatter.update wFmtL wTask wInfo 2).1).info wTask.id = some i1
        ∧ i1.last_printed = wInfo.messages.length - 1
            + (if wTask.done = false ∧ wTask.total.isSome then 2 else 1)
        ∧ countNL ((CursesFormatter.update wFmtL wTask wInfo 2).2) = i1.last_printed :=
  ⟨rfl, C8_lines_recorded wFmtL wTask wInfo 2 rfl rfl (by decide) rfl (by decide) (by decide)
    (by decide) (by decide)⟩

/-- C4 witness: one message on a begun task with one prior entry. -/
theorem C4_ring_fifo_witness :
    lookupInfo wFmt.info wTask.id = some wInfo
    ∧ ((CursesTaskInfo.init wTask wFmt.max_messages 1).messages.length = 1
        ∧ (CursesTaskInfo.init wTask wFmt.max_messages 1).maxlen = wFmt.max_messages + 1
        ∧ ∃ f1 out i1, CursesFormatter.message wFmt wTask "x" 1 = some (f1, out)
            ∧ lookupInfo f1.info wTask.id = some i1
            ∧ i1.maxlen = wInfo.maxlen
            ∧ i1.messages = (wInfo.messages ++ ["x"]).drop (wInfo.messages.length + 1 - wInfo.maxlen)
            ∧ i1.messages.length ≤ wInfo.maxlen) :=
  ⟨rfl, C4_ring_fifo wFmt wTask wInfo "x" 1 rfl⟩

end Atwork
